import Mathlib

/-!
Shallow embedding of the GeoTutor ITS core (src/geotutor_main.py) and
verification of its specification claims.

Python floats are embedded as exact rationals (ℚ): every numeric literal in
the source is an exact decimal, and no claim depends on binary floating-point
artefacts.  Python's `round(x, n)` is embedded as round-half-up to `n`
decimals; Python resolves exact ties to even, but no claim in this
development touches an exact tie at the last kept digit.
-/

set_option autoImplicit false

namespace GeoTutor

/-- Embedding of Python `round(x, n)`: round to `n` decimal places. -/
def roundTo (n : ℕ) (x : ℚ) : ℚ :=
  (((x * 10 ^ n + 1 / 2).floor : ℤ) : ℚ) / 10 ^ n

/-- The three shape families of the tutor. -/
inductive Shape where
  | Triangle
  | Square
  | Rectangle
deriving DecidableEq, Repr

/-- The three difficulty levels, ordinal easy < medium < hard. -/
inductive Difficulty where
  | easy
  | medium
  | hard
deriving DecidableEq, Repr

/-- The named numeric dimensions a generated problem carries
(the keys of the dict returned by `generate_problem`). -/
inductive Dims where
  | triangle (base height : ℚ)
  | square (side : ℚ)
  | rect (length width : ℚ)
deriving DecidableEq, Repr

/-- A generated problem: its stored dimensions and its stored `area` value. -/
structure Problem where
  dims : Dims
  area : ℚ
deriving DecidableEq, Repr

/-- The closed-form area formula of each shape, applied to stored dimensions
(Triangle = ½·base·height, Square = side², Rectangle = length·width). -/
def Dims.formulaArea : Dims → ℚ
  | .triangle b h => 1 / 2 * b * h
  | .square s => s * s
  | .rect l w => l * w

/-- Embedding of `generate_problem(shape, difficulty)` from
src/geotutor_main.py lines 75–112.  The random draws (`random.randint` /
`random.uniform`) are passed in as the parameters `r₁ r₂`; the dict literals
of the source become `Problem` values.  Note the source stores rounded
dimensions for the medium triangle height and for all hard shapes, while it
computes `area` from the unrounded draws. -/
def generate_problem : Shape → Difficulty → ℚ → ℚ → Problem
  | .Triangle, .easy, b, h => ⟨.triangle b h, roundTo 2 (1 / 2 * b * h)⟩
  | .Square, .easy, s, _ => ⟨.square s, s * s⟩
  | .Rectangle, .easy, l, w => ⟨.rect l w, l * w⟩
  | .Triangle, .medium, b, h => ⟨.triangle b (roundTo 1 h), roundTo 2 (1 / 2 * b * h)⟩
  | .Square, .medium, s, _ => ⟨.square s, s * s⟩
  | .Rectangle, .medium, l, w => ⟨.rect l w, l * w⟩
  | .Triangle, .hard, b, h => ⟨.triangle (roundTo 1 b) (roundTo 1 h), roundTo 2 (1 / 2 * b * h)⟩
  | .Square, .hard, s, _ => ⟨.square (roundTo 1 s), roundTo 2 (s * s)⟩
  | .Rectangle, .hard, l, w => ⟨.rect (roundTo 1 l) (roundTo 1 w), roundTo 2 (l * w)⟩

/-- Fixed BKT parameter `p_guess = 0.2` (src line 120). -/
def p_guess : ℚ := 2 / 10

/-- Fixed BKT parameter `p_slip = 0.1` (src line 121). -/
def p_slip : ℚ := 1 / 10

/-- Fixed BKT parameter `p_learn = 0.3` (src line 122). -/
def p_learn : ℚ := 3 / 10

/-- The numerator computed inside `BKT.update` (src lines 125–130). -/
def bkt_num (p : ℚ) (correct : Bool) : ℚ :=
  if correct then p * (1 - p_slip) else p * p_slip

/-- The denominator computed inside `BKT.update` (src lines 125–130). -/
def bkt_den (p : ℚ) (correct : Bool) : ℚ :=
  if correct then bkt_num p true + (1 - p) * p_guess
  else bkt_num p false + (1 - p) * (1 - p_guess)

/-- Embedding of `BKT.update(correct)` (src lines 124–136) acting on the
stored mastery `p_known`.  Returns the pair
(new stored `p_known` at full precision, the value `update` returns,
which is the stored value rounded to 3 decimals). -/
def bkt_update (p : ℚ) (correct : Bool) : ℚ × ℚ :=
  let p1 := if bkt_den p correct ≠ 0 then bkt_num p correct / bkt_den p correct else p
  let p2 := p1 + (1 - p1) * p_learn
  (p2, roundTo 3 p2)

/-- The stored `p_known` after a sequence of `BKT.update` calls: each call
continues from the full-precision stored value, never the rounded return. -/
def bkt_run (p : ℚ) : List Bool → ℚ
  | [] => p
  | b :: bs => bkt_run (bkt_update p b).1 bs

/-- The difficulty transition performed by `GeoTutorApp._check_answer`
(src lines 343–357): on a correct answer easy→medium and medium→hard with no
branch for hard (so hard stays); on an incorrect answer hard→medium and
medium→easy with no branch for easy (so easy stays). -/
def step_difficulty (d : Difficulty) (correct : Bool) : Difficulty :=
  if correct then
    match d with
    | .easy => .medium
    | .medium => .hard
    | .hard => .hard
  else
    match d with
    | .hard => .medium
    | .medium => .easy
    | .easy => .easy

/-- A learner profile record, as created at src lines 148–154 and stored in
the persisted JSON object (spec §6). -/
structure Profile where
  mastery : ℚ
  difficulty : Difficulty
  attempts : ℕ
  correct : ℕ
  last_login : String
deriving DecidableEq, Repr

/-- The in-memory `STUDENTS_DB`: a string-keyed mapping (Python dict),
embedded as an association list with the usual unique-key semantics. -/
abbrev StudentsDb := List (String × Profile)

/-- Dict lookup `d[k]` / `d.get(k)`. -/
def assocGet {α : Type} (k : String) : List (String × α) → Option α
  | [] => none
  | (k₂, v) :: rest => if k₂ = k then some v else assocGet k rest

/-- Dict update `d[k] = v` (replaces the value at an existing key,
appends a fresh key). -/
def assocSet {α : Type} (k : String) (v : α) : List (String × α) → List (String × α)
  | [] => [(k, v)]
  | (k₂, v₂) :: rest => if k₂ = k then (k, v) :: rest else (k₂, v₂) :: assocSet k v rest

/-- Dict removal, used to embed `os.rename`'s effect on the source name. -/
def assocRemove {α : Type} (k : String) : List (String × α) → List (String × α)
  | [] => []
  | (k₂, v) :: rest => if k₂ = k then assocRemove k rest else (k₂, v) :: assocRemove k rest

/-- Contents of a file on disk, as far as the persistence layer observes
them.  `json.dump` / `json.load` are Python-stdlib collaborators (not code of
this repository); they are embedded by their contract: a snapshot written by
`json.dump` deserializes back to an equal mapping (`good`), any other byte
string raises `json.JSONDecodeError` on load (`corrupt`). -/
inductive FileContent where
  | good (db : StudentsDb)
  | corrupt (raw : String)
deriving DecidableEq

/-- The file system visible to the program: names mapped to contents. -/
abbrev FileSystem := List (String × FileContent)

/-- `STUDENTS_FILE = "students_data.json"` (src line 29). -/
def STUDENTS_FILE : String := "students_data.json"

/-- Embedding of `os.rename(old, new)`: the content moves to the new name. -/
def os_rename (old new : String) (fs : FileSystem) : FileSystem :=
  match assocGet old fs with
  | none => fs
  | some c => assocSet new c (assocRemove old fs)

/-- Embedding of `load_students()` (src lines 33–41).  `ts` is the value of
`datetime.now().timestamp()` used in the backup name.  Returns the file
system after the call together with the mapping returned to the caller. -/
def load_students (ts : String) (fs : FileSystem) : FileSystem × StudentsDb :=
  match assocGet STUDENTS_FILE fs with
  | some (.good db) => (fs, db)
  | some (.corrupt _) =>
      (os_rename STUDENTS_FILE (STUDENTS_FILE ++ ".bak_" ++ ts) fs, [])
  | none => (fs, [])

/-- Embedding of `save_students(db)` (src lines 44–46): overwrite the whole
snapshot file with the serialized mapping. -/
def save_students (db : StudentsDb) (fs : FileSystem) : FileSystem :=
  assocSet STUDENTS_FILE (.good db) fs

/-- The mutable state of a `GeoTutorApp` session that the grading path
touches: the BKT mastery state `p_known`, the current difficulty, the
in-memory `STUDENTS_DB`, the file system holding the persisted snapshot,
and the current problem (if any). -/
structure AppState where
  student_id : String
  p_known : ℚ
  difficulty : Difficulty
  db : StudentsDb
  fs : FileSystem
  current_problem : Option Problem
deriving DecidableEq

/-- What a `_check_answer` call reports back: silently return when no
problem is active, show the "Please enter a number" error dialog on a parse
failure, or grade the answer. -/
inductive SubmitOutcome where
  | noProblem
  | invalidFormat
  | graded (correct : Bool)
deriving DecidableEq, Repr

/-- Embedding of `GeoTutorApp._save_profile(correct)` (src lines 165–172):
write mastery, difficulty, incremented counters and the login timestamp into
the learner's record of `STUDENTS_DB`, then `save_students(STUDENTS_DB)`.
The `.get(key, 0)` defaults of the source become `getD` on the looked-up
record; `ts` is `datetime.now()`. -/
def save_profile (ts : String) (correct : Bool) (st : AppState) : AppState :=
  let old := assocGet st.student_id st.db
  let prof : Profile :=
    { mastery := st.p_known
      difficulty := st.difficulty
      attempts := (old.map Profile.attempts).getD 0 + 1
      correct := (old.map Profile.correct).getD 0 + (if correct then 1 else 0)
      last_login := ts }
  let db := assocSet st.student_id prof st.db
  { st with db := db, fs := save_students db st.fs }

/-- Embedding of `GeoTutorApp._check_answer` (src lines 323–361) up to and
including the `_save_profile` call.  The outcome of `float(entry text)` is
passed in as `input : Option ℚ` (`none` embeds the `ValueError` branch).
The trailing `_new_problem()` call only regenerates the displayed problem
from fresh randomness and is not part of the graded state transition. -/
def check_answer (ts : String) (input : Option ℚ) (st : AppState) :
    AppState × SubmitOutcome :=
  match st.current_problem with
  | none => (st, .noProblem)
  | some prob =>
    match input with
    | none => (st, .invalidFormat)
    | some user =>
      let correct : Bool := decide (|user - prob.area| < 1 / 10)
      let st1 := { st with p_known := (bkt_update st.p_known correct).1 }
      let st2 := { st1 with difficulty := step_difficulty st1.difficulty correct }
      (save_profile ts correct st2, .graded correct)

/-! ### Helper lemmas -/

lemma assocGet_assocSet_self {α : Type} (k : String) (v : α) (l : List (String × α)) :
    assocGet k (assocSet k v l) = some v := by
  induction l with
  | nil => simp [assocGet, assocSet]
  | cons hd tl ih =>
    obtain ⟨k₂, v₂⟩ := hd
    by_cases h : k₂ = k <;> simp [assocSet, assocGet, h, ih]

lemma bkt_den_true (p : ℚ) : bkt_den p true = 2 / 10 + 7 / 10 * p := by
  simp only [bkt_den, bkt_num, p_slip, p_guess, if_pos]
  ring

lemma bkt_den_false (p : ℚ) : bkt_den p false = 8 / 10 - 7 / 10 * p := by
  simp only [bkt_den, bkt_num, p_slip, p_guess, if_neg, Bool.false_eq_true,
    not_false_iff, if_false]
  ring

lemma bkt_den_pos {p : ℚ} (hp0 : 0 ≤ p) (hp1 : p ≤ 1) (b : Bool) :
    0 < bkt_den p b := by
  cases b
  · rw [bkt_den_false]; linarith
  · rw [bkt_den_true]; linarith

lemma bkt_num_nonneg {p : ℚ} (hp0 : 0 ≤ p) (b : Bool) : 0 ≤ bkt_num p b := by
  cases b <;> simp only [bkt_num, p_slip, if_pos, if_neg, Bool.false_eq_true,
    not_false_iff, if_false] <;> nlinarith

lemma bkt_num_le_den {p : ℚ} (hp1 : p ≤ 1) (b : Bool) :
    bkt_num p b ≤ bkt_den p b := by
  cases b
  · rw [bkt_den_false]
    simp only [bkt_num, p_slip, if_neg, Bool.false_eq_true, not_false_iff, if_false]
    linarith
  · rw [bkt_den_true]
    simp only [bkt_num, p_slip, if_pos]
    linarith

lemma bkt_update_fst_eq {p : ℚ} {b : Bool} (hden : bkt_den p b ≠ 0) :
    (bkt_update p b).1 =
      bkt_num p b / bkt_den p b + (1 - bkt_num p b / bkt_den p b) * p_learn := by
  simp [bkt_update, hden]

lemma bkt_step_bounds {p : ℚ} (hp0 : 0 ≤ p) (hp1 : p ≤ 1) (b : Bool) :
    3 / 10 ≤ (bkt_update p b).1 ∧ (bkt_update p b).1 ≤ 1 := by
  have hden := bkt_den_pos hp0 hp1 b
  have hq0 : 0 ≤ bkt_num p b / bkt_den p b :=
    div_nonneg (bkt_num_nonneg hp0 b) hden.le
  have hq1 : bkt_num p b / bkt_den p b ≤ 1 :=
    (div_le_one hden).mpr (bkt_num_le_den hp1 b)
  rw [bkt_update_fst_eq hden.ne.symm]
  unfold p_learn
  constructor <;> nlinarith

/-! ### Claim theorems -/

/-- C4: grading a correct answer promotes difficulty exactly one step,
saturating at hard, and grading an incorrect answer demotes it exactly one
step, saturating at easy. -/
theorem difficulty_transition_table :
    step_difficulty .easy true = .medium ∧
    step_difficulty .medium true = .hard ∧
    step_difficulty .hard true = .hard ∧
    step_difficulty .hard false = .medium ∧
    step_difficulty .medium false = .easy ∧
    step_difficulty .easy false = .easy := by
  decide

/-- C1 (evidence of the code bug): at hard difficulty with sampled draws
base = height = 10.04 (inside the stated [8,20] × [6,15] ranges),
`generate_problem` stores the rounded dimensions 10.0 × 10.0 but stores
`area = round(½·10.04·10.04, 2) = 50.4`, computed from the unrounded draws.
The closed-form area of the problem's own stored dimensions is 50.0, so the
stored area is off by 0.4 — beyond the 2-decimal rounding tolerance and
beyond the 0.1 grading tolerance, contradicting the claim that dimensions
are rounded before the area is computed. -/
theorem generate_problem_hard_area_ignores_rounded_dims :
    generate_problem .Triangle .hard (1004 / 100) (1004 / 100) =
      { dims := .triangle 10 10, area := 504 / 10 } ∧
    Dims.formulaArea (.triangle 10 10) = 50 ∧
    ¬ |(504 / 10 : ℚ) - 50| < 1 / 10 := by
  refine ⟨?_, by norm_num [Dims.formulaArea], ?_⟩
  · simp only [generate_problem, Problem.mk.injEq, Dims.triangle.injEq]
    norm_num [roundTo, Rat.floor_def']
  · rw [show (504 / 10 : ℚ) - 50 = 2 / 5 by norm_num,
      abs_of_nonneg (by norm_num : (0 : ℚ) ≤ 2 / 5)]
    norm_num

/-- C2: for any prior in [0,1] and either observation, `BKT.update` computes
the numerator `pKnown·(1−pSlip)` resp. `pKnown·pSlip` and the denominator
`numerator + (1−pKnown)·pGuess` resp. `numerator + (1−pKnown)·(1−pGuess)`
with pGuess = 0.2 and pSlip = 0.1, sets the posterior to
numerator/denominator, applies the learning transfer `+ (1−pKnown)·0.3`
unconditionally, stores that value at full precision, and returns the stored
value rounded to 3 decimals. -/
theorem bkt_update_bayes_transfer_rounding (p : ℚ) (b : Bool)
    (hp0 : 0 ≤ p) (hp1 : p ≤ 1) :
    bkt_num p b = (if b then p * (1 - 1 / 10) else p * (1 / 10)) ∧
    bkt_den p b =
      bkt_num p b + (if b then (1 - p) * (2 / 10) else (1 - p) * (1 - 2 / 10)) ∧
    (bkt_update p b).1 =
      bkt_num p b / bkt_den p b + (1 - bkt_num p b / bkt_den p b) * (3 / 10) ∧
    (bkt_update p b).2 = roundTo 3 (bkt_update p b).1 := by
  have hden := (bkt_den_pos hp0 hp1 b).ne.symm
  refine ⟨?_, ?_, ?_, ?_⟩
  · cases b <;> simp [bkt_num, p_slip]
  · cases b <;> simp [bkt_den, p_guess]
  · rw [bkt_update_fst_eq hden]; rw [p_learn]
  · simp [bkt_update]

/-- C2 witness: the theorem instantiated at the prior 1/2 with a correct
observation. -/
theorem bkt_update_bayes_transfer_rounding_witness :
    (0 : ℚ) ≤ 1 / 2 ∧ (1 / 2 : ℚ) ≤ 1 ∧
    (bkt_num (1 / 2) true = (if true then (1 / 2 : ℚ) * (1 - 1 / 10) else 1 / 2 * (1 / 10)) ∧
     bkt_den (1 / 2) true =
       bkt_num (1 / 2) true +
         (if true then (1 - 1 / 2 : ℚ) * (2 / 10) else (1 - 1 / 2) * (1 - 2 / 10)) ∧
     (bkt_update (1 / 2) true).1 =
       bkt_num (1 / 2) true / bkt_den (1 / 2) true +
         (1 - bkt_num (1 / 2) true / bkt_den (1 / 2) true) * (3 / 10) ∧
     (bkt_update (1 / 2) true).2 = roundTo 3 (bkt_update (1 / 2) true).1) :=
  ⟨by norm_num, by norm_num,
    bkt_update_bayes_transfer_rounding (1 / 2) true (by norm_num) (by norm_num)⟩

/-- C3: from any initial mastery in [0,1], the stored `p_known` stays in
[0,1] after any finite sequence of `BKT.update` calls. -/
theorem bkt_run_mem_unit_interval (p : ℚ) (hp0 : 0 ≤ p) (hp1 : p ≤ 1)
    (bs : List Bool) : 0 ≤ bkt_run p bs ∧ bkt_run p bs ≤ 1 := by
  induction bs generalizing p with
  | nil => exact ⟨hp0, hp1⟩
  | cons b bs ih =>
    have h := bkt_step_bounds hp0 hp1 b
    exact ih _ (by linarith [h.1]) h.2

/-- C3 witness: the theorem instantiated at the default initial mastery 0.1
and the observation sequence [true, false, true]. -/
theorem bkt_run_mem_unit_interval_witness :
    (0 : ℚ) ≤ 1 / 10 ∧ (1 / 10 : ℚ) ≤ 1 ∧
    (0 ≤ bkt_run (1 / 10) [true, false, true] ∧
      bkt_run (1 / 10) [true, false, true] ≤ 1) :=
  ⟨by norm_num, by norm_num,
    bkt_run_mem_unit_interval (1 / 10) (by norm_num) (by norm_num) [true, false, true]⟩

/-- C9: for any prior in [0,1] the denominator computed in `BKT.update` is
nonzero for either observation, so the division-by-zero guard always takes
its division branch and the skip branch is unreachable. -/
theorem bkt_den_nonzero_guard_unreachable (p : ℚ) (b : Bool)
    (hp0 : 0 ≤ p) (hp1 : p ≤ 1) :
    bkt_den p b ≠ 0 ∧
    (bkt_update p b).1 =
      bkt_num p b / bkt_den p b + (1 - bkt_num p b / bkt_den p b) * p_learn := by
  have hden := (bkt_den_pos hp0 hp1 b).ne.symm
  exact ⟨hden, bkt_update_fst_eq hden⟩

/-- C9 witness: the theorem instantiated at prior 0 with an incorrect
observation. -/
theorem bkt_den_nonzero_guard_unreachable_witness :
    (0 : ℚ) ≤ 0 ∧ (0 : ℚ) ≤ 1 ∧
    (bkt_den 0 false ≠ 0 ∧
      (bkt_update 0 false).1 =
        bkt_num 0 false / bkt_den 0 false +
          (1 - bkt_num 0 false / bkt_den 0 false) * p_learn) :=
  ⟨le_refl 0, by norm_num,
    bkt_den_nonzero_guard_unreachable 0 false (le_refl 0) (by norm_num)⟩

/-- C10: after a single `BKT.update` from any prior in [0,1], the stored
`p_known` is at least pLearn = 0.3, because the unconditional learning
transfer is applied to a non-negative posterior. -/
theorem bkt_update_stored_ge_p_learn (p : ℚ) (b : Bool)
    (hp0 : 0 ≤ p) (hp1 : p ≤ 1) :
    p_learn ≤ (bkt_update p b).1 := by
  have h := (bkt_step_bounds hp0 hp1 b).1
  rw [p_learn]
  exact h

/-- C10 witness: the theorem instantiated at prior 0 with an incorrect
observation. -/
theorem bkt_update_stored_ge_p_learn_witness :
    (0 : ℚ) ≤ 0 ∧ (0 : ℚ) ≤ 1 ∧ p_learn ≤ (bkt_update 0 false).1 :=
  ⟨le_refl 0, by norm_num,
    bkt_update_stored_ge_p_learn 0 false (le_refl 0) (by norm_num)⟩

/-- C7: when the persisted file fails to deserialize, `load_students`
returns the empty mapping and the corrupt content survives unchanged under
the timestamp-suffixed backup name; the function is total, so it never
raises to the caller. -/
theorem load_students_corrupt_quarantine (ts : String) (fs : FileSystem)
    (raw : String)
    (hc : assocGet STUDENTS_FILE fs = some (.corrupt raw)) :
    (load_students ts fs).2 = [] ∧
    assocGet (STUDENTS_FILE ++ ".bak_" ++ ts) (load_students ts fs).1 =
      some (.corrupt raw) := by
  simp only [load_students, os_rename, hc]
  exact ⟨trivial, assocGet_assocSet_self _ _ _⟩

/-- C7 witness: the theorem instantiated on a file system whose snapshot
file holds undecodable content. -/
theorem load_students_corrupt_quarantine_witness :
    assocGet STUDENTS_FILE [(STUDENTS_FILE, FileContent.corrupt "not json")] =
      some (.corrupt "not json") ∧
    ((load_students "1700000000.0" [(STUDENTS_FILE, FileContent.corrupt "not json")]).2 = [] ∧
      assocGet (STUDENTS_FILE ++ ".bak_" ++ "1700000000.0")
        (load_students "1700000000.0" [(STUDENTS_FILE, FileContent.corrupt "not json")]).1 =
        some (.corrupt "not json")) :=
  ⟨by simp [assocGet],
    load_students_corrupt_quarantine "1700000000.0"
      [(STUDENTS_FILE, FileContent.corrupt "not json")] "not json" (by simp [assocGet])⟩

/-- C5: with a problem active and the learner's record present, submitting a
numeric answer judges correctness as |value − correctArea| < 0.1, stores a
record with `attempts` incremented by exactly 1 and `correct` incremented by
1 exactly when the answer was judged correct, and persists the full updated
mapping to the snapshot file in the same call. -/
theorem check_answer_grades_counts_persists (ts : String) (user : ℚ)
    (st : AppState) (prob : Problem) (old : Profile)
    (hprob : st.current_problem = some prob)
    (hold : assocGet st.student_id st.db = some old) :
    (check_answer ts (some user) st).2 =
      .graded (decide (|user - prob.area| < 1 / 10)) ∧
    assocGet st.student_id (check_answer ts (some user) st).1.db =
      some { mastery := (bkt_update st.p_known (decide (|user - prob.area| < 1 / 10))).1
             difficulty := step_difficulty st.difficulty (decide (|user - prob.area| < 1 / 10))
             attempts := old.attempts + 1
             correct := old.correct + (if |user - prob.area| < 1 / 10 then 1 else 0)
             last_login := ts } ∧
    assocGet STUDENTS_FILE (check_answer ts (some user) st).1.fs =
      some (.good (check_answer ts (some user) st).1.db) := by
  simp [check_answer, hprob, save_profile, save_students, hold,
    assocGet_assocSet_self]

/-- C5 witness: the theorem instantiated for learner "S1" on the easy
Triangle problem base = 4, height = 6 (correctArea = 12) with the submitted
answer 12.05. -/
theorem check_answer_grades_counts_persists_witness :
    (AppState.mk "S1" (1 / 10) .easy [("S1", Profile.mk (1 / 10) .easy 0 0 "t0")] []
        (some (Problem.mk (.triangle 4 6) 12))).current_problem =
      some (Problem.mk (.triangle 4 6) 12) ∧
    assocGet "S1" [("S1", Profile.mk (1 / 10) .easy 0 0 "t0")] =
      some (Profile.mk (1 / 10) .easy 0 0 "t0") ∧
    ((check_answer "t1" (some (241 / 20))
        (AppState.mk "S1" (1 / 10) .easy [("S1", Profile.mk (1 / 10) .easy 0 0 "t0")] []
          (some (Problem.mk (.triangle 4 6) 12)))).2 =
      .graded (decide (|(241 / 20 : ℚ) - (Problem.mk (.triangle 4 6) 12).area| < 1 / 10)) ∧
    assocGet "S1"
        (check_answer "t1" (some (241 / 20))
          (AppState.mk "S1" (1 / 10) .easy [("S1", Profile.mk (1 / 10) .easy 0 0 "t0")] []
            (some (Problem.mk (.triangle 4 6) 12)))).1.db =
      some { mastery :=
               (bkt_update (1 / 10)
                 (decide (|(241 / 20 : ℚ) - (Problem.mk (.triangle 4 6) 12).area| < 1 / 10))).1
             difficulty :=
               step_difficulty .easy
                 (decide (|(241 / 20 : ℚ) - (Problem.mk (.triangle 4 6) 12).area| < 1 / 10))
             attempts := (Profile.mk (1 / 10) Difficulty.easy 0 0 "t0").attempts + 1
             correct :=
               (Profile.mk (1 / 10) Difficulty.easy 0 0 "t0").correct +
                 (if |(241 / 20 : ℚ) - (Problem.mk (.triangle 4 6) 12).area| < 1 / 10 then 1
                  else 0)
             last_login := "t1" } ∧
    assocGet STUDENTS_FILE
        (check_answer "t1" (some (241 / 20))
          (AppState.mk "S1" (1 / 10) .easy [("S1", Profile.mk (1 / 10) .easy 0 0 "t0")] []
            (some (Problem.mk (.triangle 4 6) 12)))).1.fs =
      some (.good
        (check_answer "t1" (some (241 / 20))
          (AppState.mk "S1" (1 / 10) .easy [("S1", Profile.mk (1 / 10) .easy 0 0 "t0")] []
            (some (Problem.mk (.triangle 4 6) 12)))).1.db)) :=
  ⟨rfl, by simp [assocGet],
    check_answer_grades_counts_persists "t1" (241 / 20)
      (AppState.mk "S1" (1 / 10) .easy [("S1", Profile.mk (1 / 10) .easy 0 0 "t0")] []
        (some (Problem.mk (.triangle 4 6) 12)))
      (Problem.mk (.triangle 4 6) 12) (Profile.mk (1 / 10) .easy 0 0 "t0")
      rfl (by simp [assocGet])⟩

/-- C6: with a problem active, submitting text that does not parse as a
number reports the invalid-format error and leaves the whole session state —
mastery, difficulty, in-memory mapping, and the persisted file — exactly as
before the call, performing no save. -/
theorem check_answer_invalid_input_no_mutation (ts : String) (st : AppState)
    (prob : Problem) (hprob : st.current_problem = some prob) :
    check_answer ts none st = (st, .invalidFormat) := by
  simp [check_answer, hprob]

/-- C6 witness: the theorem instantiated on a session holding an easy Square
problem. -/
theorem check_answer_invalid_input_no_mutation_witness :
    (AppState.mk "S1" (1 / 10) .easy [] []
        (some (Problem.mk (.square 3) 9))).current_problem =
      some (Problem.mk (.square 3) 9) ∧
    check_answer "t1" none
        (AppState.mk "S1" (1 / 10) .easy [] [] (some (Problem.mk (.square 3) 9))) =
      (AppState.mk "S1" (1 / 10) .easy [] [] (some (Problem.mk (.square 3) 9)),
        .invalidFormat) :=
  ⟨rfl,
    check_answer_invalid_input_no_mutation "t1"
      (AppState.mk "S1" (1 / 10) .easy [] [] (some (Problem.mk (.square 3) 9)))
      (Problem.mk (.square 3) 9) rfl⟩

/-- C8: a successful `save_students` of any mapping followed by
`load_students` yields the same mapping back. -/
theorem load_after_save_roundtrip (ts : String) (db : StudentsDb)
    (fs : FileSystem) :
    (load_students ts (save_students db fs)).2 = db := by
  simp only [load_students, save_students, assocGet_assocSet_self]

end GeoTutor
